import Mathlib

/-!
Verification of the demand-forecasting pipeline.

Modelling conventions for the shallow embedding:
* Python floats are modelled as rationals; values produced by library calls
  whose results are irrational (square roots, the normal quantile, the sine
  oscillation) or random (noise draws, promotional-date draws) enter as
  oracle parameters, constrained by interval hypotheses where a claim
  needs their numeric value.
* A pandas DataFrame of sales rows is a list of records whose cells are
  Option-valued: none models a missing value (NaN / NaT).
* Rounding to two decimals models round(x, 2); the Python tie-breaking rule
  (half to even) and the Mathlib one (half up) agree except at exact ties,
  which none of the verified properties depend on.
* try/except around a library call is modelled by an outcome parameter:
  either the value the call returned or the exception message it raised.
-/

namespace DemandForecast

/-- Rounding to two decimal places, modelling round(x, 2). -/
def round2 (q : ℚ) : ℚ := (round (100 * q) : ℤ) / 100

/-- One row of the sales DataFrame (columns date, product_id, sales, price,
promotion); a none cell is a missing value.  Dates are day numbers. -/
structure Row where
  date : Option ℤ
  product_id : Option String
  sales : Option ℚ
  price : Option ℚ
  promotion : Option ℤ
deriving Repr, DecidableEq

/-- The row filter for sales nonnegativity: a NaN sales cell compares false,
exactly as a NaN does under the pandas comparison sales >= 0. -/
def salesNonneg (r : Row) : Bool :=
  match r.sales with
  | some s => decide (0 ≤ s)
  | none => false

/-- The dropna filter over the subset date, product_id, sales. -/
def hasRequired (r : Row) : Bool :=
  r.date.isSome && r.product_id.isSome && r.sales.isSome

/-- Date coercion pd.to_datetime on an already date-typed column: the
generator produces datetime cells, so the coercion is the identity (a NaT
stays NaT). -/
def to_datetime (d : Option ℤ) : Option ℤ := d

/-- Comparison of date cells as sort_values orders them, missing dates last
(na_position defaults to last). -/
def dateLe (a b : Option ℤ) : Bool :=
  match a, b with
  | some x, some y => decide (x ≤ y)
  | some _, none => true
  | none, some _ => false
  | none, none => true

/-- Row comparison by the date column. -/
def rowLe (r s : Row) : Bool := dateLe r.date s.date

/-- cleanse_data: drop negative-sales rows, drop rows missing
date/product_id/sales, coerce the date column, sort ascending by date.
(The IQR block of the source computes quantile bounds but keeps every row,
so it has no effect on the result and is not modelled.  The sort step
calls sort_values with its default kind, an unstable quicksort whose
ordering of rows with equal dates is a numpy implementation detail; it is
modelled here as a stable sort by the date key, which agrees with the
program on every consequence that does not depend on the relative order
of equal-date rows — row multiset, row count, membership, per-row field
properties, and date-sortedness — and on every frame whose surviving
dates are distinct.  Properties sensitive to the tie order, such as
idempotence of the whole step, are not decided by this model.) -/
def cleanse_data (df : List Row) : List Row :=
  let c1 := df.filter salesNonneg
  let c2 := c1.filter hasRequired
  let c3 := c2.map (fun r => { r with date := to_datetime r.date })
  c3.mergeSort rowLe

/-- Number of rows whose sales cell is strictly negative (a NaN compares
false under sales < 0, as in pandas). -/
def negSalesCount (df : List Row) : ℕ :=
  (df.filter (fun r =>
    match r.sales with
    | some s => decide (s < 0)
    | none => false)).length

/-- The validation report.  The reporting-only fields of the source dict
(missing_values, date_range, unique_products) are informational and not
referenced by any verified property, so they are not modelled. -/
structure ValidationReport where
  is_valid : Bool
  total_records : ℕ
  negative_sales : ℕ
  error : Option String
deriving Repr, DecidableEq

/-- validate_data: empty dataset returns early; afterwards the
negative-sales check and then the record-count check each overwrite
is_valid and the error message, in source order. -/
def validate_data (df : List Row) : ValidationReport :=
  let base : ValidationReport :=
    { is_valid := true
      total_records := df.length
      negative_sales := negSalesCount df
      error := none }
  if df.length = 0 then
    { base with is_valid := false, error := some "Empty dataset" }
  else
    let r1 :=
      if 0 < base.negative_sales then
        { base with
            is_valid := false
            error := some ("Found " ++ toString base.negative_sales ++
              " records with negative sales") }
      else base
    if base.total_records < 30 then
      { r1 with
          is_valid := false
          error := some "Insufficient data (need at least 30 records)" }
    else r1

/-- The capacity-analysis result of the output subgraph. -/
structure CapacityAnalysis where
  total_forecast_q1 : ℚ
  total_capacity_q1 : ℚ
  utilization_rate : ℚ
  capacity_status : String
  surplus_capacity : ℚ
  shortfall : ℚ
deriving Repr, DecidableEq

/-- analyze_forecast_vs_capacity: quarterly capacity is the sum of the
production lines' max_monthly units times 3; the status is sufficient only
when the total forecast is strictly below 85 percent of that capacity. -/
def analyze_forecast_vs_capacity (total_forecast : ℚ)
    (max_monthly_lines : List ℚ) : CapacityAnalysis :=
  let total_capacity := max_monthly_lines.sum * 3
  { total_forecast_q1 := total_forecast
    total_capacity_q1 := total_capacity
    utilization_rate :=
      if 0 < total_capacity then total_forecast / total_capacity else 0
    capacity_status :=
      if total_forecast < total_capacity * (85 / 100) then "sufficient"
      else "constrained"
    surplus_capacity := max 0 (total_capacity - total_forecast)
    shortfall := max 0 (total_forecast - total_capacity) }

/-- The columns of an alerts row touched by update_alert.  Timestamps are
abstract clock readings (naturals). -/
structure Alert where
  read : Bool
  read_at : Option ℕ
  read_by : Option String
  dismissed : Bool
  dismissed_at : Option ℕ
deriving Repr, DecidableEq

/-- A partial update: a none field is absent from the request and leaves
the column untouched. -/
structure AlertUpdate where
  read : Option Bool
  read_by : Option String
  dismissed : Option Bool
deriving Repr, DecidableEq

/-- A freshly created alert: unread, with no timestamps. -/
def freshAlert : Alert :=
  { read := false, read_at := none, read_by := none
    dismissed := false, dismissed_at := none }

/-- update_alert: the SET clause assigns read whenever update.read is
present, and additionally stamps read_at with the current time only when
the new value is true; likewise for dismissed and dismissed_at; read_by is
assigned when present.  An empty update returns the stored row. -/
def update_alert (u : AlertUpdate) (now : ℕ) (a : Alert) : Alert :=
  let a1 :=
    match u.read with
    | none => a
    | some r =>
        { a with read := r, read_at := if r then some now else a.read_at }
  let a2 :=
    match u.read_by with
    | none => a1
    | some rb => { a1 with read_by := some rb }
  match u.dismissed with
  | none => a2
  | some d =>
      { a2 with
          dismissed := d
          dismissed_at := if d then some now else a2.dismissed_at }

/-- A sequence of updates applied through the repository, each with the
clock reading at which it runs. -/
def applyUpdates (us : List (AlertUpdate × ℕ)) (a : Alert) : Alert :=
  us.foldl (fun b p => update_alert p.1 p.2 b) a

/-- Python truthiness of an optional string field: an absent value and the
empty string are both falsy. -/
def pyTruthy (s : Option String) : Bool :=
  match s with
  | some v => v ≠ ""
  | none => false

/-- route_forecast_mode of the legacy comprehensive graph. -/
def route_forecast_mode (mode : String) (new_product_id : Option String) :
    String :=
  if mode = "new_product" && pyTruthy new_product_id then
    "new_product_forecast"
  else if mode = "promotional" then "promotional_analysis"
  else if mode = "seasonal" then "seasonal_forecast"
  else "seasonal_forecast"

/-- The static edges of the graph after the conditional routing node. -/
def nextNode (n : String) : Option String :=
  if n = "seasonal_forecast" then some "promotional_analysis"
  else if n = "promotional_analysis" then some "promotional_demand"
  else if n = "promotional_demand" then some "competitor_analysis"
  else if n = "competitor_analysis" then some "competitor_adjustment"
  else if n = "competitor_adjustment" then some "supply_chain"
  else if n = "supply_chain" then some "scenario_planning"
  else if n = "scenario_planning" then some "realtime_adjustment"
  else if n = "new_product_forecast" then some "supply_chain"
  else none

/-- The nodes executed from a given node, following the static edges (the
fuel bound exceeds the graph diameter). -/
def traceFrom : ℕ → String → List String
  | 0, _ => []
  | n + 1, s =>
      s :: (match nextNode s with
            | some t => traceFrom n t
            | none => [])

/-- The nodes a run executes after pattern recognition, for a given
forecast mode and new-product id. -/
def runTrace (mode : String) (pid : Option String) : List String :=
  traceFrom 12 (route_forecast_mode mode pid)

/-- The chain the seasonal-forecast path executes. -/
def seasonalChain : List String :=
  ["seasonal_forecast", "promotional_analysis", "promotional_demand",
   "competitor_analysis", "competitor_adjustment", "supply_chain",
   "scenario_planning", "realtime_adjustment"]

/-- The last n elements of a column, as Series.tail selects them. -/
def tailN (n : ℕ) (l : List (Option ℚ)) : List (Option ℚ) :=
  l.drop (l.length - n)

/-- Series.mean with the default skipna: missing cells are ignored; the
mean of an all-missing column is itself missing (NaN). -/
def seriesMean (l : List (Option ℚ)) : Option ℚ :=
  let vs := l.filterMap id
  if vs.length = 0 then none else some (vs.sum / vs.length)

/-- The maximum of the date column, missing cells skipped (NaT on an
all-missing column). -/
def dateMax (df : List Row) : Option ℤ :=
  (df.filterMap Row.date).max?

/-- The document the seasonal-forecast stage stores in state: either an
error document or a result document.  Cells of the value and date series
are Option-valued since a NaN mean propagates into them.  The static
metadata entries of the source dict (last_historical_date echoes dateMax,
model_components is a constant) are not modelled. -/
inductive SeasonalForecastDoc where
  | err (msg : String)
  | result (values lower upper : List (Option ℚ))
      (dates : List (Option ℤ)) (horizonDays : ℕ) (warning : Option String)
deriving Repr, DecidableEq

/-- forecast_seasonal_demand.  The Prophet fit/predict pipeline is
abstracted as an outcome parameter: either the formatted success document
or the exception message the fit raised; fallbackExc likewise injects an
exception raised inside the fallback block (the except handler of the
source).  On fit failure with a quiet fallback, the stage projects the
trailing-window mean flat across the horizon with 20 percent bounds. -/
def forecast_seasonal_demand (df : List Row) (forecast_horizon : ℕ)
    (prophetOutcome : Except String SeasonalForecastDoc)
    (fallbackExc : Option String) : SeasonalForecastDoc :=
  let validation := validate_data df
  if validation.is_valid = false then
    SeasonalForecastDoc.err (validation.error.getD "Data validation failed")
  else
    match prophetOutcome with
    | Except.ok doc => doc
    | Except.error e =>
        match fallbackExc with
        | some fe =>
            SeasonalForecastDoc.err
              ("Forecast generation failed: " ++ e ++ ", fallback failed: "
                ++ fe)
        | none =>
            let window0 := min 7 (df.length / 4)
            let window := if window0 < 1 then 1 else window0
            let last_sales := seriesMean (tailN window (df.map Row.sales))
            SeasonalForecastDoc.result
              (List.replicate forecast_horizon last_sales)
              (List.replicate forecast_horizon
                (last_sales.map (fun s => s * (8 / 10))))
              (List.replicate forecast_horizon
                (last_sales.map (fun s => s * (12 / 10))))
              ((List.range forecast_horizon).map (fun i =>
                (dateMax df).map (fun d => d + (i + 1))))
              forecast_horizon
              (some ("Prophet model failed, using simple average: " ++ e))

/-- One entry of the scenarios dict: name, multiplier, probability. -/
structure ScenarioSpec where
  name : String
  multiplier : ℚ
  probability : ℚ
deriving Repr, DecidableEq

/-- The optimistic scenario entry of the scenarios dict. -/
def optimisticSpec : ScenarioSpec :=
  { name := "optimistic", multiplier := 12 / 10, probability := 2 / 10 }

/-- The realistic scenario entry of the scenarios dict. -/
def realisticSpec : ScenarioSpec :=
  { name := "realistic", multiplier := 1, probability := 5 / 10 }

/-- The pessimistic scenario entry of the scenarios dict. -/
def pessimisticSpec : ScenarioSpec :=
  { name := "pessimistic", multiplier := 8 / 10, probability := 3 / 10 }

/-- One scenario forecast: the base series scaled by the multiplier,
rounded to two decimals per point. -/
def scenarioForecast (base : List ℚ) (s : ScenarioSpec) : List ℚ :=
  base.map (fun v => round2 (v * s.multiplier))

/-- The scenario-planning document.  Both the LLM-success branch and the
exception branch of the source return the same scenario and expected
series; only the narrative/error entry differs. -/
structure ScenarioPlanning where
  optimistic : List ℚ
  realistic : List ℚ
  pessimistic : List ℚ
  expected_forecast : List ℚ
  llm_error : Option String
deriving Repr, DecidableEq

/-- generate_scenarios: builds the three scenario series by looping over
the scenarios dict, then the expected series by indexing the three at
each position and weighting by the probabilities. -/
def generate_scenarios (base : List ℚ)
    (llmOutcome : Except String String) : ScenarioPlanning :=
  let opt := scenarioForecast base optimisticSpec
  let rea := scenarioForecast base realisticSpec
  let pes := scenarioForecast base pessimisticSpec
  let expected := (List.range base.length).map (fun i =>
    round2 (opt.getD i 0 * optimisticSpec.probability +
      rea.getD i 0 * realisticSpec.probability +
      pes.getD i 0 * pessimisticSpec.probability))
  { optimistic := opt
    realistic := rea
    pessimistic := pes
    expected_forecast := expected
    llm_error :=
      match llmOutcome with
      | Except.ok _ => none
      | Except.error e => some ("LLM analysis failed: " ++ e) }

/-- Mean of a plain numeric series (np.mean). -/
def listMean (l : List ℚ) : ℚ := l.sum / l.length

/-- The internal quantities of the supply-chain optimization (the output
dict additionally rounds them to two decimals, which the claimed half-unit
tolerance absorbs). -/
structure SupplyChainResult where
  avg_daily_demand : ℚ
  std_daily_demand : ℚ
  lead_time_demand : ℚ
  lead_time_std : ℚ
  safety_stock : ℚ
  reorder_point : ℚ
deriving Repr, DecidableEq

/-- optimize_supply_chain on a forecast series.  std stands for the value
np.std returned (the square root of the population variance of the
series), z for stats.norm.ppf at the service level, and sqrtLead for the
square root of the lead time; all three are irrational, so they enter as
oracle parameters constrained where a claim needs their value.  An empty
series returns the error document (none). -/
def optimize_supply_chain (forecast_values : List ℚ)
    (std z sqrtLead : ℚ) (lead_time_days : ℕ) :
    Option SupplyChainResult :=
  if forecast_values.isEmpty then none
  else
    let avg_daily_demand := listMean forecast_values
    let lead_time_demand := avg_daily_demand * lead_time_days
    let lead_time_std := std * sqrtLead
    let safety_stock := z * lead_time_std
    some
      { avg_daily_demand := avg_daily_demand
        std_daily_demand := std
        lead_time_demand := lead_time_demand
        lead_time_std := lead_time_std
        safety_stock := safety_stock
        reorder_point := lead_time_demand + safety_stock }

/-- The promotion lift percentage.  A NaN non-promo average compares
false under the positivity guard, giving lift 0; a NaN promo average over
a positive non-promo average propagates (none). -/
def liftPct (avg_promo avg_non_promo : Option ℚ) : Option ℚ :=
  match avg_non_promo with
  | some a =>
      if 0 < a then
        match avg_promo with
        | some p => some ((p - a) / a * 100)
        | none => none
      else some 0
  | none => some 0

/-- The promotional-analysis document; a none field is an entry absent
from the source dict on that branch. -/
structure PromoAnalysis where
  error : Option String
  total_promotions : ℕ
  avg_promo_sales : Option ℚ
  avg_non_promo_sales : Option ℚ
  lift_percentage : Option ℚ
  predicted_lift_percentage : Option ℚ
  effectiveness : Option String
  llm_error : Option String
deriving Repr, DecidableEq

/-- The effectiveness label; a NaN lift compares false at both guards. -/
def effectivenessLabel (lift : Option ℚ) : String :=
  match lift with
  | some l => if 30 < l then "high" else if 10 < l then "medium" else "low"
  | none => "low"

/-- The rows whose promotion flag equals 1 (a missing flag matches
neither filter, as NaN compares false). -/
def promoRows (df : List Row) : List Row :=
  df.filter (fun r => r.promotion == some 1)

/-- The rows whose promotion flag equals 0. -/
def nonPromoRows (df : List Row) : List Row :=
  df.filter (fun r => r.promotion == some 0)

/-- The historical lift of a dataset: promo mean against non-promo mean. -/
def histLift (df : List Row) : Option ℚ :=
  liftPct (seriesMean ((promoRows df).map Row.sales))
    (seriesMean ((nonPromoRows df).map Row.sales))

/-- analyze_promotional_impact.  The LLM narrative call is an outcome
parameter.  On success, the predicted lift is the historical lift, scaled
by 0.8 when promotional days exceed 20 percent of all days; the exception
handler instead reports the historical lift unscaled. -/
def analyze_promotional_impact (df : List Row)
    (llmOutcome : Except String String) : PromoAnalysis :=
  let promo := promoRows df
  let nonPromo := nonPromoRows df
  if promo.length = 0 then
    { error := some "No historical promotions found"
      total_promotions := 0
      avg_promo_sales := none
      avg_non_promo_sales := none
      lift_percentage := none
      predicted_lift_percentage := none
      effectiveness := none
      llm_error := none }
  else
    let ap := seriesMean (promo.map Row.sales)
    let anp := seriesMean (nonPromo.map Row.sales)
    let lift := liftPct ap anp
    match llmOutcome with
    | Except.ok _ =>
        let future :=
          if (promo.length : ℚ) > (df.length : ℚ) * (2 / 10) then
            lift.map (fun l => l * (8 / 10))
          else lift
        { error := none
          total_promotions := promo.length
          avg_promo_sales := ap
          avg_non_promo_sales := anp
          lift_percentage := lift.map round2
          predicted_lift_percentage := future.map round2
          effectiveness := some (effectivenessLabel lift)
          llm_error := none }
    | Except.error e =>
        { error := none
          total_promotions := promo.length
          avg_promo_sales := ap
          avg_non_promo_sales := anp
          lift_percentage := lift.map round2
          predicted_lift_percentage := lift.map round2
          effectiveness := some (effectivenessLabel lift)
          llm_error := some ("LLM analysis failed: " ++ e) }

/-- The weekend factor of the sales generator: 0.8 on Saturday/Sunday.
start_weekday is the weekday index of the start date (Monday 0). -/
def weekly_factor (start_weekday i : ℕ) : ℚ :=
  if 5 ≤ (start_weekday + i) % 7 then 8 / 10 else 1

/-- generate_mock_sales_data: one row per day.  isPromo tells whether the
day is one of the promotional dates, seasonalOsc i stands for the value of
sin at day i of the yearly cycle, and noise i for the standard normal
draw of that day (scaled by the noise level); dates are modelled as day
indices from the start date. -/
def generate_mock_sales_data (product_id : String) (days : ℕ)
    (base_demand seasonal_amplitude trend noise_level : ℚ)
    (promotional_boost : ℚ) (isPromo : ℕ → Bool)
    (seasonalOsc noise : ℕ → ℚ) (start_weekday : ℕ) : List Row :=
  (List.range days).map (fun (i : ℕ) =>
    let demand := base_demand + trend * (i : ℚ)
    let seasonal := seasonal_amplitude * seasonalOsc i
    let wf := weekly_factor start_weekday i
    let pf := if isPromo i then promotional_boost else 1
    let sales := max 0 ((demand + seasonal) * wf * pf + noise_level * noise i)
    { date := some (i : ℤ)
      product_id := some product_id
      sales := some (round2 sales)
      price := some (round2 (50 * (if isPromo i then 8 / 10 else 1)))
      promotion := some (if isPromo i then 1 else 0) })

/-- Truthiness of a pandas boolean Series: Series.__bool__ raises
ValueError unconditionally, whatever the length or contents, so the
conditional expression evaluating it propagates the exception. -/
def seriesBool (_l : List Bool) : Except String Bool :=
  Except.error ("The truth value of a Series is ambiguous. Use a.empty, " ++
    "a.bool(), a.item(), a.any() or a.all().")

/-- generate_ev_inverter_data: builds the sales rows with the EV-inverter
parameters, then reprices the whole frame with the scalar conditional of
the source, whose condition is a boolean Series; the ValueError that
truthiness raises propagates out of the generator. -/
def generate_ev_inverter_data (days : ℕ) (isPromo : ℕ → Bool)
    (seasonalOsc noise : ℕ → ℚ) (start_weekday : ℕ) :
    Except String (List Row) :=
  let df := generate_mock_sales_data "DENSO_EV_INVERTER" days 175 35
    (15 / 100) 8 (14 / 10) isPromo seasonalOsc noise start_weekday
  match seriesBool (df.map (fun r => r.promotion == some 1)) with
  | Except.error m => Except.error m
  | Except.ok b =>
      let priced := df.map (fun r =>
        { r with price := some (1000 * (if b then 85 / 100 else 1)) })
      Except.ok (cleanse_data priced)

/-- Modelled from the spec: the EV-inverter variant prices at
1000.0 times 0.85 when promotional, 1000.0 otherwise.  This is the
evident elementwise intent of the repricing line, whose source form
instead evaluates the truthiness of a Series. -/
def generate_ev_inverter_data_intended (days : ℕ) (isPromo : ℕ → Bool)
    (seasonalOsc noise : ℕ → ℚ) (start_weekday : ℕ) : List Row :=
  let df := generate_mock_sales_data "DENSO_EV_INVERTER" days 175 35
    (15 / 100) 8 (14 / 10) isPromo seasonalOsc noise start_weekday
  let priced := df.map (fun r =>
    { r with
        price := some (1000 * (if r.promotion == some 1 then 85 / 100
          else 1)) })
  cleanse_data priced

/-- Whether a seasonal-forecast document is an error document. -/
def SeasonalForecastDoc.isErr : SeasonalForecastDoc → Bool
  | SeasonalForecastDoc.err _ => true
  | SeasonalForecastDoc.result _ _ _ _ _ _ => false

/-- The forecast_values series of a seasonal-forecast document. -/
def SeasonalForecastDoc.valuesOf : SeasonalForecastDoc → List (Option ℚ)
  | SeasonalForecastDoc.err _ => []
  | SeasonalForecastDoc.result v _ _ _ _ _ => v

/-- The forecast_lower series of a seasonal-forecast document. -/
def SeasonalForecastDoc.lowerOf : SeasonalForecastDoc → List (Option ℚ)
  | SeasonalForecastDoc.err _ => []
  | SeasonalForecastDoc.result _ lo _ _ _ _ => lo

/-- The forecast_upper series of a seasonal-forecast document. -/
def SeasonalForecastDoc.upperOf : SeasonalForecastDoc → List (Option ℚ)
  | SeasonalForecastDoc.err _ => []
  | SeasonalForecastDoc.result _ _ up _ _ _ => up

/-- The warning entry of a seasonal-forecast document. -/
def SeasonalForecastDoc.warningOf : SeasonalForecastDoc → Option String
  | SeasonalForecastDoc.err _ => none
  | SeasonalForecastDoc.result _ _ _ _ _ w => w

/-- A one-row dataset with a negative sale, below the record minimum. -/
def dfNegSmall : List Row :=
  [{ date := some 0, product_id := some "p", sales := some (-1),
     price := none, promotion := some 0 }]

/-- A 30-row valid dataset of constant sales 10. -/
def df30 : List Row :=
  (List.range 30).map (fun (i : ℕ) =>
    { date := some (i : ℤ), product_id := some "p", sales := some 10,
      price := none, promotion := some 0 })

/-- A ten-day dataset with three promotional days (30 percent) of sales
200 and seven regular days of sales 100, so the historical lift is 100
percent. -/
def dfPromo : List Row :=
  [{ date := some 0, product_id := some "p", sales := some 200,
     price := none, promotion := some 1 },
   { date := some 1, product_id := some "p", sales := some 200,
     price := none, promotion := some 1 },
   { date := some 2, product_id := some "p", sales := some 200,
     price := none, promotion := some 1 },
   { date := some 3, product_id := some "p", sales := some 100,
     price := none, promotion := some 0 },
   { date := some 4, product_id := some "p", sales := some 100,
     price := none, promotion := some 0 },
   { date := some 5, product_id := some "p", sales := some 100,
     price := none, promotion := some 0 },
   { date := some 6, product_id := some "p", sales := some 100,
     price := none, promotion := some 0 },
   { date := some 7, product_id := some "p", sales := some 100,
     price := none, promotion := some 0 },
   { date := some 8, product_id := some "p", sales := some 100,
     price := none, promotion := some 0 },
   { date := some 9, product_id := some "p", sales := some 100,
     price := none, promotion := some 0 }]

/-! Theorems. -/

theorem round2_nonneg {q : ℚ} (h : 0 ≤ q) : 0 ≤ round2 q := by
  unfold round2
  have h0 : (0 : ℤ) ≤ round (100 * q) := by
    rw [round_eq]
    exact Int.floor_nonneg.mpr (by linarith)
  positivity

theorem map_to_datetime_id (l : List Row) :
    l.map (fun r => { r with date := to_datetime r.date }) = l := by
  induction l with
  | nil => rfl
  | cons a t ih =>
      simp only [List.map_cons, ih]
      rfl

theorem cleanse_data_eq (df : List Row) :
    cleanse_data df =
      ((df.filter salesNonneg).filter hasRequired).mergeSort rowLe := by
  show (((df.filter salesNonneg).filter hasRequired).map
      (fun r => { r with date := to_datetime r.date })).mergeSort rowLe = _
  rw [map_to_datetime_id]

/-- C10: for a dataset with at least one negative-sales row and fewer
than 30 records, validate_data reports is_valid false with the
insufficient-data message, the record-count check overwriting the
negative-sales reason. -/
theorem validate_data_insufficient_overrides (df : List Row)
    (hneg : 1 ≤ negSalesCount df) (hlen : df.length < 30) :
    (validate_data df).is_valid = false ∧
    (validate_data df).error =
      some "Insufficient data (need at least 30 records)" := by
  have hle : negSalesCount df ≤ df.length := List.length_filter_le _ _
  have hne : ¬ df.length = 0 := by omega
  simp only [validate_data]
  rw [if_neg hne, if_pos hlen]
  exact ⟨rfl, rfl⟩

theorem validate_data_insufficient_overrides_witness :
    1 ≤ negSalesCount dfNegSmall ∧ dfNegSmall.length < 30 ∧
    ((validate_data dfNegSmall).is_valid = false ∧
     (validate_data dfNegSmall).error =
       some "Insufficient data (need at least 30 records)") :=
  ⟨by decide, by decide,
   validate_data_insufficient_overrides dfNegSmall (by decide) (by decide)⟩

/-- C1 counterexample: with one production line of 100 monthly units the
quarterly capacity is 300, and a total forecast of 255 units is exactly
85 percent of it; the reported status there is constrained, not
sufficient as the claim states. -/
theorem capacity_status_exact_85_counterexample :
    (255 : ℚ) = ((100 : ℚ) * 3) * (85 / 100) ∧
    (analyze_forecast_vs_capacity 255 [100]).capacity_status =
      "constrained" ∧
    "constrained" ≠ "sufficient" := by
  refine ⟨by norm_num, ?_, by decide⟩
  simp only [analyze_forecast_vs_capacity, List.sum_cons, List.sum_nil]
  norm_num

/-- C1 amended: the status is sufficient exactly when the total forecast
is strictly below 85 percent of the quarterly capacity; at exactly 85
percent or above it is constrained. -/
theorem capacity_status_threshold (f : ℚ) (caps : List ℚ) :
    (f < caps.sum * 3 * (85 / 100) →
      (analyze_forecast_vs_capacity f caps).capacity_status =
        "sufficient") ∧
    (caps.sum * 3 * (85 / 100) ≤ f →
      (analyze_forecast_vs_capacity f caps).capacity_status =
        "constrained") := by
  unfold analyze_forecast_vs_capacity
  constructor
  · intro h
    simp only [if_pos h]
  · intro h
    simp only [if_neg (not_lt.mpr h)]

theorem capacity_status_threshold_witness :
    (analyze_forecast_vs_capacity 254 [100]).capacity_status =
      "sufficient" ∧
    (analyze_forecast_vs_capacity 255 [100]).capacity_status =
      "constrained" :=
  ⟨(capacity_status_threshold 254 [100]).1 (by norm_num),
   (capacity_status_threshold 255 [100]).2 (by norm_num)⟩

theorem update_alert_read_at_eq (u : AlertUpdate) (now : ℕ) (a : Alert) :
    (update_alert u now a).read_at =
      if u.read = some true then some now else a.read_at := by
  rcases u with ⟨ur, urb, ud⟩
  rcases ur with _ | r <;> rcases urb with _ | rb <;> rcases ud with _ | d <;>
    first
    | (cases r <;> cases d <;> simp [update_alert])
    | (cases r <;> simp [update_alert])
    | (cases d <;> simp [update_alert])
    | simp [update_alert]

theorem update_alert_read_eq (u : AlertUpdate) (now : ℕ) (a : Alert) :
    (update_alert u now a).read = u.read.getD a.read := by
  rcases u with ⟨ur, urb, ud⟩
  rcases ur with _ | r <;> rcases urb with _ | rb <;> rcases ud with _ | d <;>
    first
    | (cases d <;> simp [update_alert])
    | simp [update_alert]

theorem applyUpdates_read_at_none (us : List (AlertUpdate × ℕ)) (a : Alert) :
    (applyUpdates us a).read_at = none ↔
      (a.read_at = none ∧ ∀ p ∈ us, p.1.read ≠ some true) := by
  induction us generalizing a with
  | nil => simp [applyUpdates]
  | cons p t ih =>
      have hstep : applyUpdates (p :: t) a =
          applyUpdates t (update_alert p.1 p.2 a) := by
        simp [applyUpdates]
      rw [hstep, ih, update_alert_read_at_eq]
      by_cases hp : p.1.read = some true
      · simp [hp]
      · simp only [if_neg hp, List.mem_cons]
        constructor
        · rintro ⟨h1, h2⟩
          exact ⟨h1, fun q hq => hq.elim (fun he => he ▸ hp) (h2 q)⟩
        · rintro ⟨h1, h2⟩
          exact ⟨h1, fun q hq => h2 q (Or.inr hq)⟩

/-- C2 counterexample: marking an alert read at time 1 and unread at
time 2 leaves read false with read_at still set to time 1, so read_at can
be non-null while the read flag is false. -/
theorem alert_read_at_counterexample :
    (applyUpdates
      [({ read := some true, read_by := none, dismissed := none }, 1),
       ({ read := some false, read_by := none, dismissed := none }, 2)]
      freshAlert).read = false ∧
    (applyUpdates
      [({ read := some true, read_by := none, dismissed := none }, 1),
       ({ read := some false, read_by := none, dismissed := none }, 2)]
      freshAlert).read_at = some 1 := by decide

/-- C2 amended: an update with read true stamps read_at with the current
time and sets the flag, but an update with read false leaves read_at
untouched; over any update sequence from a fresh alert, read_at is
non-null exactly when some update in the sequence set read to true. -/
theorem alert_read_at_amended :
    (∀ (u : AlertUpdate) (now : ℕ) (a : Alert), u.read = some true →
      (update_alert u now a).read_at = some now ∧
      (update_alert u now a).read = true) ∧
    (∀ (u : AlertUpdate) (now : ℕ) (a : Alert), u.read = some false →
      (update_alert u now a).read_at = a.read_at) ∧
    (∀ us : List (AlertUpdate × ℕ),
      ((applyUpdates us freshAlert).read_at ≠ none ↔
        ∃ p ∈ us, p.1.read = some true)) := by
  refine ⟨?_, ?_, ?_⟩
  · intro u now a h
    constructor
    · rw [update_alert_read_at_eq, if_pos h]
    · rw [update_alert_read_eq, h]
      rfl
  · intro u now a h
    rw [update_alert_read_at_eq, if_neg (by simp [h])]
  · intro us
    rw [ne_eq, applyUpdates_read_at_none]
    simp [freshAlert]

theorem alert_read_at_amended_witness :
    (update_alert { read := some true, read_by := none, dismissed := none }
      7 freshAlert).read_at = some 7 :=
  (alert_read_at_amended.1
    { read := some true, read_by := none, dismissed := none }
    7 freshAlert rfl).1

/-- C3 counterexample: a run with forecast_mode promotional is routed
directly to promotional analysis; it does not execute the seasonal
forecast stage, so it does not follow the claimed full chain. -/
theorem route_promotional_counterexample :
    runTrace "promotional" none ≠ seasonalChain ∧
    "seasonal_forecast" ∉ runTrace "promotional" none := by decide

/-- C3 amended: modes seasonal, new_product without a new-product id and
every other mode except promotional and new_product enter at the seasonal
forecast and execute the full chain; promotional instead enters at
promotional analysis and executes the chain from there onward, skipping
the seasonal forecast stage. -/
theorem route_forecast_mode_amended :
    (∀ (mode : String) (pid : Option String),
      mode ≠ "new_product" → mode ≠ "promotional" →
      runTrace mode pid = seasonalChain) ∧
    (∀ pid : Option String, pyTruthy pid = false →
      runTrace "new_product" pid = seasonalChain) ∧
    (∀ pid : Option String, runTrace "promotional" pid =
      ["promotional_analysis", "promotional_demand", "competitor_analysis",
       "competitor_adjustment", "supply_chain", "scenario_planning",
       "realtime_adjustment"]) := by
  refine ⟨?_, ?_, ?_⟩
  · intro mode pid h1 h2
    unfold runTrace route_forecast_mode
    simp only [h1, h2, decide_False, Bool.false_and, Bool.false_eq_true,
      if_false]
    split_ifs <;> rfl
  · intro pid hp
    unfold runTrace route_forecast_mode
    rw [hp]
    rfl
  · intro pid
    unfold runTrace route_forecast_mode
    rfl

theorem route_forecast_mode_amended_witness :
    runTrace "comprehensive" none = seasonalChain ∧
    runTrace "new_product" (some "") = seasonalChain ∧
    runTrace "promotional" (some "P1") =
      ["promotional_analysis", "promotional_demand", "competitor_analysis",
       "competitor_adjustment", "supply_chain", "scenario_planning",
       "realtime_adjustment"] :=
  ⟨route_forecast_mode_amended.1 "comprehensive" none (by decide) (by decide),
   route_forecast_mode_amended.2.1 (some "") (by decide),
   route_forecast_mode_amended.2.2 (some "P1")⟩

/-- C5: on a validated dataset, when the decomposition model fails to
fit, the seasonal-forecast stage returns a non-error result document with
horizon-many values all equal to the trailing-window mean (window
min(7, rows/4), at least 1), bounds at exactly minus and plus 20 percent
of it, and a warning retained; if the fallback itself also raises, it
returns an error document citing both failures. -/
theorem seasonal_fallback_shape (df : List Row) (hz : ℕ) (e fe : String)
    (hvalid : (validate_data df).is_valid = true) :
    (forecast_seasonal_demand df hz (Except.error e) none).isErr = false ∧
    (forecast_seasonal_demand df hz (Except.error e) none).valuesOf.length
      = hz ∧
    (∀ v ∈ (forecast_seasonal_demand df hz (Except.error e) none).valuesOf,
      v = seriesMean
        (tailN (max 1 (min 7 (df.length / 4))) (df.map Row.sales))) ∧
    (forecast_seasonal_demand df hz (Except.error e) none).lowerOf =
      (forecast_seasonal_demand df hz (Except.error e) none).valuesOf.map
        (Option.map (fun s => s * (8 / 10))) ∧
    (forecast_seasonal_demand df hz (Except.error e) none).upperOf =
      (forecast_seasonal_demand df hz (Except.error e) none).valuesOf.map
        (Option.map (fun s => s * (12 / 10))) ∧
    (forecast_seasonal_demand df hz (Except.error e) none).warningOf =
      some ("Prophet model failed, using simple average: " ++ e) ∧
    forecast_seasonal_demand df hz (Except.error e) (some fe) =
      SeasonalForecastDoc.err
        ("Forecast generation failed: " ++ e ++ ", fallback failed: "
          ++ fe) := by
  have hwin : (if min 7 (df.length / 4) < 1 then 1
      else min 7 (df.length / 4)) = max 1 (min 7 (df.length / 4)) := by
    rcases Nat.lt_or_ge (min 7 (df.length / 4)) 1 with h | h
    · rw [if_pos h]
      omega
    · rw [if_neg (Nat.not_lt.mpr h)]
      omega
  have hnone : forecast_seasonal_demand df hz (Except.error e) none =
      SeasonalForecastDoc.result
        (List.replicate hz (seriesMean
          (tailN (max 1 (min 7 (df.length / 4))) (df.map Row.sales))))
        (List.replicate hz ((seriesMean
          (tailN (max 1 (min 7 (df.length / 4))) (df.map Row.sales))).map
            (fun s => s * (8 / 10))))
        (List.replicate hz ((seriesMean
          (tailN (max 1 (min 7 (df.length / 4))) (df.map Row.sales))).map
            (fun s => s * (12 / 10))))
        ((List.range hz).map (fun i =>
          (dateMax df).map (fun d => d + (i + 1))))
        hz
        (some ("Prophet model failed, using simple average: " ++ e)) := by
    simp only [forecast_seasonal_demand, hvalid, Bool.true_eq_false,
      if_false, hwin]
  have herr : forecast_seasonal_demand df hz (Except.error e) (some fe) =
      SeasonalForecastDoc.err
        ("Forecast generation failed: " ++ e ++ ", fallback failed: "
          ++ fe) := by
    simp only [forecast_seasonal_demand, hvalid, Bool.true_eq_false,
      if_false]
  refine ⟨?_, ?_, ?_, ?_, ?_, ?_, herr⟩
  · rw [hnone]
    rfl
  · rw [hnone]
    exact List.length_replicate hz _
  · rw [hnone]
    intro v hv
    exact List.eq_of_mem_replicate hv
  · rw [hnone]
    simp only [SeasonalForecastDoc.lowerOf, SeasonalForecastDoc.valuesOf,
      List.map_replicate]
  · rw [hnone]
    simp only [SeasonalForecastDoc.upperOf, SeasonalForecastDoc.valuesOf,
      List.map_replicate]
  · rw [hnone]
    rfl

theorem seasonal_fallback_shape_witness :
    (validate_data df30).is_valid = true ∧
    ((forecast_seasonal_demand df30 5 (Except.error "boom") none).isErr
        = false ∧
     (forecast_seasonal_demand df30 5
        (Except.error "boom") none).valuesOf.length = 5 ∧
     (∀ v ∈ (forecast_seasonal_demand df30 5
        (Except.error "boom") none).valuesOf,
       v = seriesMean
         (tailN (max 1 (min 7 (df30.length / 4))) (df30.map Row.sales))) ∧
     (forecast_seasonal_demand df30 5 (Except.error "boom") none).lowerOf =
       (forecast_seasonal_demand df30 5
         (Except.error "boom") none).valuesOf.map
           (Option.map (fun s => s * (8 / 10))) ∧
     (forecast_seasonal_demand df30 5 (Except.error "boom") none).upperOf =
       (forecast_seasonal_demand df30 5
         (Except.error "boom") none).valuesOf.map
           (Option.map (fun s => s * (12 / 10))) ∧
     (forecast_seasonal_demand df30 5
        (Except.error "boom") none).warningOf =
       some ("Prophet model failed, using simple average: " ++ "boom") ∧
     forecast_seasonal_demand df30 5 (Except.error "boom") (some "bust") =
       SeasonalForecastDoc.err
         ("Forecast generation failed: " ++ "boom" ++
           ", fallback failed: " ++ "bust")) :=
  ⟨by decide, seasonal_fallback_shape df30 5 "boom" "bust" (by decide)⟩

/-- C6 counterexample: for a flat base forecast of 100 the expected
series is 98 at every point, because
1.2 times 0.2 plus 1.0 times 0.5 plus 0.8 times 0.3 is 0.98, not 1.04 as
the claim computes. -/
theorem scenario_expected_flat100_counterexample :
    (generate_scenarios [100, 100, 100]
      (Except.ok "narrative")).expected_forecast = [98, 98, 98] ∧
    (98 : ℚ) ≠ 104 := by
  constructor
  · simp only [generate_scenarios, scenarioForecast, optimisticSpec,
      realisticSpec, pessimisticSpec, List.map_cons, List.map_nil,
      List.length_cons, List.length_nil]
    norm_num [round2, List.range_succ, List.getD]
  · norm_num

/-- C6 amended: exactly three scenarios are built by scalar
multiplication, rounded to two decimals, with multipliers 1.2, 1.0 and
0.8 and probabilities 0.2, 0.5 and 0.3, and the expected series is the
pointwise probability-weighted sum of the three (rounded); for a flat
base of 100 every expected point equals 98. -/
theorem generate_scenarios_amended (base : List ℚ)
    (llm : Except String String) :
    (generate_scenarios base llm).optimistic =
      base.map (fun v => round2 (v * (12 / 10))) ∧
    (generate_scenarios base llm).realistic =
      base.map (fun v => round2 (v * 1)) ∧
    (generate_scenarios base llm).pessimistic =
      base.map (fun v => round2 (v * (8 / 10))) ∧
    (generate_scenarios base llm).expected_forecast.length = base.length ∧
    (∀ i, i < base.length →
      (generate_scenarios base llm).expected_forecast[i]? =
        some (round2
          ((generate_scenarios base llm).optimistic.getD i 0 * (2 / 10) +
           (generate_scenarios base llm).realistic.getD i 0 * (5 / 10) +
           (generate_scenarios base llm).pessimistic.getD i 0 *
             (3 / 10)))) ∧
    (∀ n, base = List.replicate n 100 →
      (generate_scenarios base llm).expected_forecast =
        List.replicate n 98) := by
  refine ⟨rfl, rfl, rfl, ?_, ?_, ?_⟩
  · simp [generate_scenarios]
  · intro i hi
    simp only [generate_scenarios]
    rw [List.getElem?_map, List.getElem?_range hi]
    rfl
  · intro n hb
    subst hb
    have h120 : round2 ((100 : ℚ) * optimisticSpec.multiplier) = 120 := by
      norm_num [round2, optimisticSpec]
    have h100 : round2 ((100 : ℚ) * realisticSpec.multiplier) = 100 := by
      norm_num [round2, realisticSpec]
    have h80 : round2 ((100 : ℚ) * pessimisticSpec.multiplier) = 80 := by
      norm_num [round2, pessimisticSpec]
    simp only [generate_scenarios, scenarioForecast, List.map_replicate,
      List.length_replicate, h120, h100, h80]
    rw [List.map_congr_left (g := fun _ => (98 : ℚ)) ?_]
    · rw [List.map_const', List.length_range]
    · intro i hi
      have hlt : i < n := List.mem_range.mp hi
      simp only [List.getD_eq_getElem?_getD,
        List.getElem?_replicate_of_lt hlt, Option.getD_some]
      norm_num [round2, optimisticSpec, realisticSpec, pessimisticSpec]

theorem generate_scenarios_amended_witness :
    (generate_scenarios (List.replicate 2 100)
      (Except.ok "x")).expected_forecast = List.replicate 2 98 :=
  (generate_scenarios_amended (List.replicate 2 100)
    (Except.ok "x")).2.2.2.2.2 2 rfl

/-- C7: the supply-chain optimization computes lead-time demand as mean
times lead time, lead-time deviation as std times the square root of the
lead time, safety stock as the service-level z times that deviation, and
the reorder point as their sum; for mean 100, std 10, lead time 7 and
service level 0.95 the results are 700, about 26.46, about 43.5 and
about 743.5, each within half a unit. -/
theorem optimize_supply_chain_formulas (fv : List ℚ) (std z s7 : ℚ)
    (hne : fv ≠ []) :
    ∃ r, optimize_supply_chain fv std z s7 7 = some r ∧
      r.avg_daily_demand = listMean fv ∧
      r.lead_time_demand = listMean fv * 7 ∧
      r.lead_time_std = std * s7 ∧
      r.safety_stock = z * r.lead_time_std ∧
      r.reorder_point = r.lead_time_demand + r.safety_stock ∧
      (listMean fv = 100 → std = 10 →
        16448 / 10000 ≤ z → z ≤ 16449 / 10000 →
        26457 / 10000 ≤ s7 → s7 ≤ 26458 / 10000 →
        r.lead_time_demand = 700 ∧
        |r.lead_time_std - 2646 / 100| ≤ 1 / 2 ∧
        |r.safety_stock - 435 / 10| ≤ 1 / 2 ∧
        |r.reorder_point - 7435 / 10| ≤ 1 / 2) := by
  have hie : fv.isEmpty = false := by
    rcases fv with _ | ⟨a, t⟩
    · exact absurd rfl hne
    · rfl
  have heq : optimize_supply_chain fv std z s7 7 = some
      { avg_daily_demand := listMean fv
        std_daily_demand := std
        lead_time_demand := listMean fv * ((7 : ℕ) : ℚ)
        lead_time_std := std * s7
        safety_stock := z * (std * s7)
        reorder_point := listMean fv * ((7 : ℕ) : ℚ) + z * (std * s7) } := by
    simp only [optimize_supply_chain, hie, Bool.false_eq_true, if_false]
  refine ⟨_, heq, rfl, by push_cast; ring, rfl, rfl, rfl, ?_⟩
  intro hm hs hz1 hz2 hs1 hs2
  dsimp only
  rw [hm, hs]
  have hzpos : (0 : ℚ) < z := by linarith
  have hspos : (0 : ℚ) < s7 := by linarith
  have hub : z * (10 * s7) ≤ 16449 / 10000 * (10 * (26458 / 10000)) := by
    apply mul_le_mul hz2 (by linarith) (by linarith) (by norm_num)
  have hlb : 16448 / 10000 * (10 * (26457 / 10000)) ≤ z * (10 * s7) := by
    apply mul_le_mul hz1 (by linarith) (by norm_num) (by linarith)
  refine ⟨by push_cast; norm_num, ?_, ?_, ?_⟩
  · rw [abs_le]
    constructor <;> linarith
  · rw [abs_le]
    constructor <;> nlinarith
  · rw [abs_le]
    push_cast
    constructor <;> nlinarith

theorem optimize_supply_chain_formulas_witness :
    ∃ r, optimize_supply_chain [90, 110] 10 (16449 / 10000)
        (26457 / 10000) 7 = some r ∧
      r.lead_time_demand = 700 ∧
      |r.lead_time_std - 2646 / 100| ≤ 1 / 2 ∧
      |r.safety_stock - 435 / 10| ≤ 1 / 2 ∧
      |r.reorder_point - 7435 / 10| ≤ 1 / 2 := by
  obtain ⟨r, hr, _, _, _, _, _, hnum⟩ :=
    optimize_supply_chain_formulas [90, 110] 10 (16449 / 10000)
      (26457 / 10000) (by simp)
  obtain ⟨h1, h2, h3, h4⟩ := hnum (by norm_num [listMean]) rfl
    (by norm_num) (by norm_num) (by norm_num) (by norm_num)
  exact ⟨r, hr, h1, h2, h3, h4⟩

/-- C8 counterexample: on a ten-day dataset with three promotional days
(30 percent, above the 20 percent threshold) and historical lift 100
percent, the predicted lift is discounted to 80 only when the narrative
call succeeds; when it raises, the fallback reports the undiscounted
100, so the discount does not hold regardless of the call outcome. -/
theorem promo_discount_llm_failure_counterexample :
    (analyze_promotional_impact dfPromo
      (Except.error "x")).predicted_lift_percentage = some 100 ∧
    (analyze_promotional_impact dfPromo
      (Except.ok "y")).predicted_lift_percentage = some 80 ∧
    (100 : ℚ) ≠ 80 := by
  have h1 : (promoRows dfPromo).map Row.sales =
      [some 200, some 200, some 200] := by decide
  have h2 : (nonPromoRows dfPromo).map Row.sales =
      [some 100, some 100, some 100, some 100, some 100, some 100,
       some 100] := by decide
  have h3 : (promoRows dfPromo).length = 3 := by decide
  have h4 : dfPromo.length = 10 := by decide
  have hmp : seriesMean ((promoRows dfPromo).map Row.sales) = some 200 := by
    rw [h1]
    norm_num [seriesMean, List.filterMap_cons, List.filterMap_nil, id_eq]
  have hmn : seriesMean ((nonPromoRows dfPromo).map Row.sales) =
      some 100 := by
    rw [h2]
    norm_num [seriesMean, List.filterMap_cons, List.filterMap_nil, id_eq]
  have hlift : liftPct (seriesMean ((promoRows dfPromo).map Row.sales))
      (seriesMean ((nonPromoRows dfPromo).map Row.sales)) = some 100 := by
    rw [hmp, hmn]
    norm_num [liftPct]
  refine ⟨?_, ?_, by norm_num⟩
  · simp only [analyze_promotional_impact, h3, hlift]
    norm_num [round2]
  · simp only [analyze_promotional_impact, h3, h4, hlift]
    norm_num [round2]

/-- C8 amended: with promotional days above 20 percent of all days, the
0.8 diminishing-returns discount applies to the predicted lift only when
the LLM narrative call succeeds; when the call raises, the fallback
reports the historical lift undiscounted. -/
theorem promo_discount_amended (df : List Row) (s e : String)
    (hp : (promoRows df).length ≠ 0)
    (hfrac : (df.length : ℚ) * (2 / 10) < ((promoRows df).length : ℚ)) :
    (analyze_promotional_impact df
      (Except.ok s)).predicted_lift_percentage =
      (histLift df).map (fun l => round2 (l * (8 / 10))) ∧
    (analyze_promotional_impact df
      (Except.error e)).predicted_lift_percentage =
      (histLift df).map round2 := by
  constructor
  · simp only [analyze_promotional_impact, if_neg hp]
    rw [if_pos hfrac]
    simp only [Option.map_map]
    rfl
  · simp only [analyze_promotional_impact, if_neg hp]
    rfl

theorem promo_discount_amended_witness :
    (analyze_promotional_impact dfPromo
      (Except.ok "y")).predicted_lift_percentage =
      (histLift dfPromo).map (fun l => round2 (l * (8 / 10))) ∧
    (analyze_promotional_impact dfPromo
      (Except.error "x")).predicted_lift_percentage =
      (histLift dfPromo).map round2 :=
  promo_discount_amended dfPromo "y" "x" (by decide)
    (by
      have h3 : ((promoRows dfPromo).length : ℚ) = 3 := by
        rw [show (promoRows dfPromo).length = 3 from by decide]
        norm_num
      have h4 : ((dfPromo.length : ℕ) : ℚ) = 10 := by
        rw [show dfPromo.length = 10 from by decide]
        norm_num
      rw [h3, h4]
      norm_num)

/-- C4: the EV-inverter generator, for any draws of the random and
trigonometric oracles, raises the Series-truthiness ValueError at the
repricing line instead of returning a dataset; repricing elementwise as
the spec intends, the 365 generated rows all survive cleansing and the
validation report is valid with 365 records and no negative sales. -/
theorem ev_inverter_generator_crash (isPromo : ℕ → Bool)
    (seasonalOsc noise : ℕ → ℚ) (sw : ℕ) :
    generate_ev_inverter_data 365 isPromo seasonalOsc noise sw =
      Except.error ("The truth value of a Series is ambiguous. Use a.empty, "
        ++ "a.bool(), a.item(), a.any() or a.all().") ∧
    (validate_data (generate_ev_inverter_data_intended 365 isPromo
      seasonalOsc noise sw)).is_valid = true ∧
    (validate_data (generate_ev_inverter_data_intended 365 isPromo
      seasonalOsc noise sw)).total_records = 365 ∧
    (validate_data (generate_ev_inverter_data_intended 365 isPromo
      seasonalOsc noise sw)).negative_sales = 0 := by
  refine ⟨rfl, ?_⟩
  have hrows : ∀ r ∈ generate_mock_sales_data "DENSO_EV_INVERTER" 365 175 35
      (15 / 100) 8 (14 / 10) isPromo seasonalOsc noise sw,
      (∃ q, r.sales = some q ∧ 0 ≤ q) ∧ r.date.isSome = true ∧
        r.product_id.isSome = true := by
    intro r hr
    simp only [generate_mock_sales_data] at hr
    obtain ⟨i, hi, rfl⟩ := List.mem_map.mp hr
    exact ⟨⟨_, rfl, round2_nonneg (le_max_left 0 _)⟩, rfl, rfl⟩
  set priced := (generate_mock_sales_data "DENSO_EV_INVERTER" 365 175 35
      (15 / 100) 8 (14 / 10) isPromo seasonalOsc noise sw).map
      (fun r => { r with
        price := some (1000 * (if r.promotion == some 1 then (85 : ℚ) / 100
          else 1)) }) with hpriced
  have hint : generate_ev_inverter_data_intended 365 isPromo seasonalOsc
      noise sw = cleanse_data priced := rfl
  have hpr : ∀ r ∈ priced, salesNonneg r = true ∧ hasRequired r = true := by
    intro r hr
    rw [hpriced] at hr
    obtain ⟨r0, hr0, rfl⟩ := List.mem_map.mp hr
    obtain ⟨⟨q, hq, hqn⟩, hd, hpid⟩ := hrows r0 hr0
    constructor
    · simp [salesNonneg, hq, hqn]
    · simp [hasRequired, hq, hd, hpid]
  have hclean : cleanse_data priced = priced.mergeSort rowLe := by
    rw [cleanse_data_eq,
      List.filter_eq_self.mpr (fun r hr => (hpr r hr).1),
      List.filter_eq_self.mpr (fun r hr => (hpr r hr).2)]
  have hlen : (cleanse_data priced).length = 365 := by
    rw [hclean, List.length_mergeSort, hpriced, List.length_map]
    simp [generate_mock_sales_data]
  have hmemc : ∀ r ∈ cleanse_data priced, ∀ q, r.sales = some q → 0 ≤ q := by
    intro r hr q hq
    rw [hclean, List.mem_mergeSort] at hr
    have hnn := (hpr r hr).1
    unfold salesNonneg at hnn
    rw [hq] at hnn
    exact of_decide_eq_true hnn
  have hneg : negSalesCount (cleanse_data priced) = 0 := by
    unfold negSalesCount
    rw [List.filter_eq_nil_iff.mpr ?_]
    · rfl
    · intro r hr hcontra
      rcases hs : r.sales with _ | q
      · rw [hs] at hcontra
        simp at hcontra
      · rw [hs] at hcontra
        have hq0 := hmemc r hr q hs
        have hlt : q < 0 := of_decide_eq_true hcontra
        linarith
  rw [hint]
  refine ⟨?_, ?_, ?_⟩
  · simp only [validate_data, hlen, hneg]
    norm_num
  · simp only [validate_data, hlen, hneg]
    norm_num
  · simp only [validate_data, hlen, hneg]
    norm_num

end DemandForecast
